import Mathlib

/-!
Verification development for the import-specifier rewriting scripts of the
repository (fix_imports_final.py, fix_sdk_types_imports.py,
restore_internal_imports.py).

Each Python regex substitution is embedded as a deterministic matcher on
lists of characters together with a left-to-right, non-overlapping
substitution scanner, mirroring the semantics of Python re.sub for these
specific patterns.  The batch runners over directories are embedded as
functions over lists of files, with I/O failures modelled by an Except
channel.
-/

set_option maxRecDepth 20000

abbrev Chars := List Char

/-- The single-quote character, written via its code point. -/
def qc : Char := Char.ofNat 39

/-- The double-quote character, written via its code point. -/
def dq : Char := Char.ofNat 34

/-- Membership in the regex character class of the two quote characters. -/
def isQ (c : Char) : Bool := c = qc || c = dq

/-- The whitespace class of the regex escape for whitespace on string
patterns: the ASCII whitespace characters together with the Unicode
whitespace code points (the separator categories plus the information
separators, next-line and no-break space), matching what the scripts'
regexes accept between the word from and the quote. -/
def isSpc (c : Char) : Bool :=
  (9 ≤ c.toNat && c.toNat ≤ 13) || (28 ≤ c.toNat && c.toNat ≤ 31) ||
  c.toNat = 32 || c.toNat = 133 || c.toNat = 160 || c.toNat = 5760 ||
  (8192 ≤ c.toNat && c.toNat ≤ 8202) || c.toNat = 8232 || c.toNat = 8233 ||
  c.toNat = 8239 || c.toNat = 8287 || c.toNat = 12288

/-- Match a literal sequence of characters at the head of the text,
returning the remaining text on success. -/
def matchLit : Chars → Chars → Option Chars
  | [], l => some l
  | _ :: _, [] => none
  | p :: ps, c :: cs => if c = p then matchLit ps cs else none

/-- Match one or more whitespace characters greedily.  In every pattern of
the scripts this quantifier is followed by a quote, which is not
whitespace, so the greedy match without backtracking is faithful. -/
def matchSpaces1 (l : Chars) : Option Chars :=
  match l.takeWhile isSpc with
  | [] => none
  | _ :: _ => some (l.dropWhile isSpc)

/-- Match one quote character (single or double). -/
def matchQuote : Chars → Option Chars
  | [] => none
  | c :: cs => if isQ c then some cs else none

/-- Count the maximal run of parent-directory segments (dot dot slash) at
the head of the text.  The bounded repetition in the pattern of
fix_imports_final.py is equivalent to counting the full run and then
checking the bound: stopping the repetition early always leaves another
dot-dot-slash segment next, which can never equal the required literal
that follows the repetition. -/
def parseDotDot : Chars → Nat × Chars
  | '.' :: '.' :: '/' :: rest =>
    let p := parseDotDot rest
    (p.1 + 1, p.2)
  | l => (0, l)

/-- Count the maximal run of traversal segments, each either
dot-dot-slash or dot-slash, at the head of the text.  This models the
unbounded repetition in the pattern of fix_sdk_types_imports.py; the
segment grammar is unambiguous because the slash terminates each
segment. -/
def parseDotOpt : Chars → Nat × Chars
  | '.' :: '.' :: '/' :: rest =>
    let p := parseDotOpt rest
    (p.1 + 1, p.2)
  | '.' :: '/' :: rest =>
    let p := parseDotOpt rest
    (p.1 + 1, p.2)
  | l => (0, l)

/-- Match the capture group of one or more non-quote characters followed
by a closing quote.  The maximal non-quote run is faithful to the greedy
character class: any character after the taken run fails the class
predicate, hence is a quote, and backtracking into the run can never place
a quote earlier. -/
def matchCapture (l : Chars) : Option (Chars × Chars) :=
  match l.takeWhile (fun c => ! isQ c), l.dropWhile (fun c => ! isQ c) with
  | [], _ => none
  | _, [] => none
  | a :: as, _ :: cs => some (a :: as, cs)

def litFrom : Chars := ("from").data
def litTypesSlash : Chars := ("types/").data
def litImport : Chars := ("import").data
def litFromSpace : Chars := ("from ").data
def litTypes : Chars := ("types").data
def litUtilsHttp : Chars := ("@modular-agent/common-utils/http/").data
def litUtilsLlm : Chars := ("@modular-agent/common-utils/llm/").data
def litUtils : Chars := ("@modular-agent/common-utils/").data

/-- The shared recognizer of both patterns in fix_imports_final.py
(lines 22 to 27): the word from, whitespace, a quote, one to six
parent-directory segments, the literal types followed by a slash, a
non-empty non-quote submodule capture, and a closing quote.  On success
it returns the captured submodule path and the remaining text. -/
def matchFromTypes (l : Chars) : Option (Chars × Chars) :=
  match matchLit litFrom l with
  | none => none
  | some l1 =>
    match matchSpaces1 l1 with
    | none => none
    | some l2 =>
      match matchQuote l2 with
      | none => none
      | some l3 =>
        let p := parseDotDot l3
        if 1 ≤ p.1 then
          if p.1 ≤ 6 then
            match matchLit litTypesSlash p.2 with
            | none => none
            | some l4 => matchCapture l4
          else none
        else none

/-- Replacement template of the first pattern of fix_imports_final.py. -/
def replP1 (cap : Chars) : Chars :=
  ("from \x27@modular-agent/types/").data ++ cap ++ [qc]

/-- Matcher of the first pattern of fix_imports_final.py, returning the
fully built replacement and the remaining text. -/
def tryP1 (l : Chars) : Option (Chars × Chars) :=
  match matchFromTypes l with
  | none => none
  | some (cap, rest) => some (replP1 cap, rest)

/-- The lazy gap of the second pattern of fix_imports_final.py: scan
forward for the earliest position where the from-types tail matches,
crossing only non-newline characters (the regex dot does not match a
newline). -/
def findFromTail : Chars → Option (Chars × Chars)
  | [] => none
  | c :: cs =>
    match matchFromTypes (c :: cs) with
    | some r => some r
    | none => if c = '\n' then none else findFromTail cs

/-- Replacement template of the second pattern of fix_imports_final.py.
The template substitutes the first capture group, which is the last
repetition of the parent-directory segment group and hence always a
single dot-dot-slash segment, in place of the import clause. -/
def replP2 (cap : Chars) : Chars :=
  ("import ../from \x27@modular-agent/types/").data ++ cap ++ [qc]

/-- Matcher of the second pattern of fix_imports_final.py: the word
for imports, whitespace, a lazy gap, then the from-types tail.  Greedy
whitespace followed by the lazy gap is faithful because the tail starts
with a non-whitespace letter, so the tail position is never inside the
whitespace run, and shrinking the whitespace run never avoids a newline
that blocks the gap. -/
def tryP2 (l : Chars) : Option (Chars × Chars) :=
  match matchLit litImport l with
  | none => none
  | some l1 =>
    match matchSpaces1 l1 with
    | none => none
    | some l2 =>
      match findFromTail l2 with
      | none => none
      | some (cap, rest) => some (replP2 cap, rest)

/-- Replacement of the single pattern of fix_sdk_types_imports.py. -/
def sdkReplL : Chars := ("from \x27@modular-agent/types\x27").data

/-- Recognizer of the single pattern of fix_sdk_types_imports.py
(line 19): the word from, one space, a quote, one or more traversal
segments, the literal types, and a closing quote; no submodule path. -/
def matchSdkRoot (l : Chars) : Option Chars :=
  match matchLit litFromSpace l with
  | none => none
  | some l1 =>
    match matchQuote l1 with
    | none => none
    | some l2 =>
      let p := parseDotOpt l2
      if p.1 = 0 then none
      else
        match matchLit litTypes p.2 with
        | none => none
        | some l3 => matchQuote l3

/-- Matcher of the fix_sdk_types_imports.py pattern with its constant
replacement. -/
def trySdk (l : Chars) : Option (Chars × Chars) :=
  match matchSdkRoot l with
  | none => none
  | some rest => some (sdkReplL, rest)

/-- Shared recognizer shape of the three patterns of
restore_internal_imports.py (lines 18 to 27): the word from, whitespace,
a quote, a package-path literal, a non-empty non-quote capture, and a
closing quote. -/
def matchUtilsWith (sub : Chars) (l : Chars) : Option (Chars × Chars) :=
  match matchLit litFrom l with
  | none => none
  | some l1 =>
    match matchSpaces1 l1 with
    | none => none
    | some l2 =>
      match matchQuote l2 with
      | none => none
      | some l3 =>
        match matchLit sub l3 with
        | none => none
        | some l4 => matchCapture l4

/-- Replacement of the http and llm rules of restore_internal_imports.py:
a same-directory relative reference. -/
def replSameDir (cap : Chars) : Chars := ("from \x27./").data ++ cap ++ [qc]

/-- Replacement of the catch-all rule of restore_internal_imports.py: a
parent-directory relative reference. -/
def replParentDir (cap : Chars) : Chars := ("from \x27../").data ++ cap ++ [qc]

/-- First restoration rule: http submodule to same-directory form. -/
def tryR1 (l : Chars) : Option (Chars × Chars) :=
  match matchUtilsWith litUtilsHttp l with
  | none => none
  | some (cap, rest) => some (replSameDir cap, rest)

/-- Second restoration rule: llm submodule to same-directory form. -/
def tryR2 (l : Chars) : Option (Chars × Chars) :=
  match matchUtilsWith litUtilsLlm l with
  | none => none
  | some (cap, rest) => some (replSameDir cap, rest)

/-- Third restoration rule: any remaining submodule to parent-directory
form. -/
def tryR3 (l : Chars) : Option (Chars × Chars) :=
  match matchUtilsWith litUtils l with
  | none => none
  | some (cap, rest) => some (replParentDir cap, rest)

/-- One full substitution pass of a single rule over the text: at each
position try the matcher; on success emit the replacement and continue
after the match, otherwise copy one character.  Fuel bounds the
recursion; one unit per step suffices because every matcher consumes at
least the initial literal.  This is the semantics of re.sub for patterns
that cannot match the empty string. -/
def scanAux (tm : Chars → Option (Chars × Chars)) : Nat → Chars → Chars
  | 0, l => l
  | _ + 1, [] => []
  | fuel + 1, c :: cs =>
    match tm (c :: cs) with
    | some (r, rest) => r ++ scanAux tm fuel rest
    | none => c :: scanAux tm fuel cs

/-- One substitution pass with fuel set to the length of the text. -/
def scanSub (tm : Chars → Option (Chars × Chars)) (l : Chars) : Chars :=
  scanAux tm l.length l

/-- The content transformation of fix_imports_final.py: the two patterns
applied in their listed order, each as a full pass. -/
def fixFinalContent (s : String) : String := ⟨scanSub tryP2 (scanSub tryP1 s.data)⟩

/-- Only the first pattern of fix_imports_final.py, used to state the
reachability question about the second pattern. -/
def subP1onlyContent (s : String) : String := ⟨scanSub tryP1 s.data⟩

/-- The content transformation of fix_types_imports in
fix_sdk_types_imports.py. -/
def fixSdkContent (s : String) : String := ⟨scanSub trySdk s.data⟩

/-- The content transformation of restore_internal_imports.py: the three
rules applied in their listed order, each as a full pass. -/
def restoreContent (s : String) : String :=
  ⟨scanSub tryR3 (scanSub tryR2 (scanSub tryR1 s.data))⟩

/-- Both canonicalization scripts in sequence: the submodule-preserving
script and then the root-collapsing script.  The two scripts target
disjoint statement shapes, so this composite represents running the full
canonicalization over a file. -/
def canonContent (s : String) : String := fixSdkContent (fixFinalContent s)

/-- A chain of parent-directory traversal segments of the given depth. -/
def dotsL : Nat → Chars
  | 0 => []
  | d + 1 => '.' :: '.' :: '/' :: dotsL d

/-- A bare relative import of a types submodule at the given depth. -/
def relSubStr (d : Nat) : String :=
  ⟨("from \x27").data ++ dotsL d ++ ("types/widgets\x27").data⟩

/-- A bare relative import of the types package root at the given depth. -/
def relRootStr (d : Nat) : String :=
  ⟨("from \x27").data ++ dotsL d ++ ("types\x27").data⟩

/-- A named import of a types submodule at the given depth. -/
def namedStr (d : Nat) : String :=
  ⟨("import \x7b Foo, Bar \x7d from \x27").data ++ dotsL d ++ ("types/widgets\x27").data⟩

/-- The alias form of the submodule import. -/
def aliasSubStr : String := "from \x27@modular-agent/types/widgets\x27"

/-- The alias form of the root import. -/
def aliasRootStr : String := "from \x27@modular-agent/types\x27"

/-- The alias form of the named import, clause preserved. -/
def namedAliasStr : String :=
  "import \x7b Foo, Bar \x7d from \x27@modular-agent/types/widgets\x27"

/-- An alias-form import of the http submodule of common-utils. -/
def httpStmtStr (rest : String) : String :=
  ⟨("from \x27@modular-agent/common-utils/http/").data ++ rest.data ++ [qc]⟩

/-- An alias-form import of the llm submodule of common-utils. -/
def llmStmtStr (rest : String) : String :=
  ⟨("from \x27@modular-agent/common-utils/llm/").data ++ rest.data ++ [qc]⟩

/-- An alias-form import of some other submodule of common-utils. -/
def utilStmtStr (rest : String) : String :=
  ⟨("from \x27@modular-agent/common-utils/").data ++ rest.data ++ [qc]⟩

/-- A same-directory relative import form. -/
def sameDirStr (rest : String) : String :=
  ⟨("from \x27./").data ++ rest.data ++ [qc]⟩

/-- A parent-directory relative import form. -/
def parentDirStr (rest : String) : String :=
  ⟨("from \x27../").data ++ rest.data ++ [qc]⟩



/-- Check that one character list starts with another (pattern first). -/
def startsWithL : Chars → Chars → Bool
  | [], _ => true
  | _ :: _, [] => false
  | p :: ps, c :: cs => if p = c then startsWithL ps cs else false

/-- Name suffix test, modelling the endswith checks of the scripts. -/
def endsWithName (n : String) (suf : String) : Bool :=
  startsWithL suf.data.reverse n.data.reverse

instance exceptDecEq {ε α : Type} [DecidableEq ε] [DecidableEq α] :
    DecidableEq (Except ε α) := fun a b =>
  match a, b with
  | Except.error e, Except.error e2 =>
    if h : e = e2 then Decidable.isTrue (by rw [h])
    else Decidable.isFalse (by intro q; cases q; exact h rfl)
  | Except.error _, Except.ok _ => Decidable.isFalse (by intro q; cases q)
  | Except.ok _, Except.error _ => Decidable.isFalse (by intro q; cases q)
  | Except.ok x, Except.ok y =>
    if h : x = y then Decidable.isTrue (by rw [h])
    else Decidable.isFalse (by intro q; cases q; exact h rfl)

/-- A source file of the batch: its name, the result of opening and
reading it (an error models an unreadable file), and whether a write to
it would succeed. -/
structure TsFile where
  name : String
  readResult : Except String String
  writeOk : Bool
deriving DecidableEq

/-- Per-file outcome of a batch runner. -/
inductive Outcome where
  | skippedDecl : Outcome
  | unchanged : Outcome
  | modified : String → Outcome
  | ioError : String → Outcome
deriving DecidableEq

/-- The per-file body shared by fix_imports_final.py and
restore_internal_imports.py: the try block reads the file, applies the
transformation, writes back only when changed, and the except clause
turns any I/O failure into a logged outcome instead of an abort. -/
def processFileTry (transform : String → String) (f : TsFile) : Outcome :=
  match f.readResult with
  | Except.error e => Outcome.ioError e
  | Except.ok content =>
    let c2 := transform content
    if c2 = content then Outcome.unchanged
    else if f.writeOk then Outcome.modified c2
    else Outcome.ioError (("write failed: ") ++ f.name)

/-- The batch runner of fix_imports_final.py (lines 31 to 54): walk the
ts files, skip declaration files, process each remaining file inside a
try block. -/
def fix_imports_in_directory (files : List TsFile) : List (String × Outcome) :=
  (files.filter (fun f => endsWithName f.name (".ts"))).map (fun f =>
    if endsWithName f.name (".d.ts") then (f.name, Outcome.skippedDecl)
    else (f.name, processFileTry fixFinalContent f))

/-- The batch runner of restore_internal_imports.py (lines 31 to 54). -/
def restore_imports_in_directory (files : List TsFile) : List (String × Outcome) :=
  (files.filter (fun f => endsWithName f.name (".ts"))).map (fun f =>
    if endsWithName f.name (".d.ts") then (f.name, Outcome.skippedDecl)
    else (f.name, processFileTry restoreContent f))

/-- The per-file function of fix_sdk_types_imports.py (lines 11 to 31):
no try block, so a read or write failure propagates as an error. -/
def fix_types_imports (f : TsFile) : Except String Outcome :=
  match f.readResult with
  | Except.error e => Except.error e
  | Except.ok content =>
    let c2 := fixSdkContent content
    if c2 = content then Except.ok Outcome.unchanged
    else if f.writeOk then Except.ok (Outcome.modified c2)
    else Except.error (("write failed: ") ++ f.name)

/-- The batch loop of fix_sdk_types_imports.py main (lines 44 to 46): it
visits every ts file, with no declaration-file exclusion, and an
uncaught exception aborts the whole run. -/
def sdk_main_batch (files : List TsFile) : Except String (List (String × Outcome)) :=
  (files.filter (fun f => endsWithName f.name (".ts"))).mapM (fun f =>
    Except.map (fun o => (f.name, o)) (fix_types_imports f))

/-- No suffix of the text is matched by the given rule matcher. -/
def NoMatchAll (tm : Chars → Option (Chars × Chars)) (l : Chars) : Prop :=
  ∀ n : Nat, tm (l.drop n) = none

/-- Decidable bounded version of NoMatchAll. -/
def nmaBool (tm : Chars → Option (Chars × Chars)) (l : Chars) : Bool :=
  (List.range (l.length + 1)).all (fun n => (tm (l.drop n)).isNone)

/-- No rule of either pipeline matches anywhere in the text. -/
def noRuleMatch (s : String) : Prop :=
  nmaBool tryP1 s.data = true ∧ nmaBool tryP2 s.data = true ∧
  nmaBool trySdk s.data = true ∧ nmaBool tryR1 s.data = true ∧
  nmaBool tryR2 s.data = true ∧ nmaBool tryR3 s.data = true

theorem scanAux_nil (tm : Chars → Option (Chars × Chars)) (f : Nat) :
    scanAux tm f [] = [] := by
  cases f <;> rfl

theorem nma_tail {tm : Chars → Option (Chars × Chars)} {c : Char} {cs : Chars}
    (h : NoMatchAll tm (c :: cs)) : NoMatchAll tm cs := by
  intro n
  exact h (n + 1)

theorem nma_cons {tm : Chars → Option (Chars × Chars)} {c : Char} {cs : Chars}
    (h0 : tm (c :: cs) = none) (h : NoMatchAll tm cs) : NoMatchAll tm (c :: cs) := by
  intro n
  cases n with
  | zero => simpa using h0
  | succ m => simpa using h m

theorem scan_of_nma {tm : Chars → Option (Chars × Chars)} :
    ∀ (f : Nat) (l : Chars), NoMatchAll tm l → scanAux tm f l = l := by
  intro f
  induction f with
  | zero => intro l _; rfl
  | succ g ih =>
    intro l h
    cases l with
    | nil => rfl
    | cons c cs =>
      have h0 : tm (c :: cs) = none := by simpa using h 0
      simp [scanAux, h0, ih cs (nma_tail h)]

theorem scanSub_of_nma {tm : Chars → Option (Chars × Chars)} {l : Chars}
    (h : NoMatchAll tm l) : scanSub tm l = l :=
  scan_of_nma l.length l h

theorem nma_nil {tm : Chars → Option (Chars × Chars)} (h : tm [] = none) :
    NoMatchAll tm [] := by
  intro n
  simpa using h

theorem nma_append_heads {tm : Chars → Option (Chars × Chars)} :
    ∀ (P Q : Chars), (∀ c ∈ P, ∀ l2 : Chars, tm (c :: l2) = none) →
      NoMatchAll tm Q → NoMatchAll tm (P ++ Q) := by
  intro P
  induction P with
  | nil => intro Q _ hq; simpa using hq
  | cons c cs ih =>
    intro Q hh hq
    refine nma_cons (hh c (by simp) _) ?_
    exact ih Q (fun x hx l2 => hh x (by simp [hx]) l2) hq

theorem nma_of_heads {tm : Chars → Option (Chars × Chars)} (l : Chars)
    (hnil : tm [] = none) (hh : ∀ c ∈ l, ∀ l2 : Chars, tm (c :: l2) = none) :
    NoMatchAll tm l := by
  have h2 := nma_append_heads l [] hh (nma_nil hnil)
  rw [List.append_nil] at h2
  exact h2

theorem nma_of_bool {tm : Chars → Option (Chars × Chars)} {l : Chars}
    (h : nmaBool tm l = true) : NoMatchAll tm l := by
  intro n
  have hall := List.all_eq_true.mp h
  by_cases hn : n ≤ l.length
  · have := hall n (List.mem_range.mpr (Nat.lt_succ_of_le hn))
    simpa [Option.isNone_iff_eq_none] using this
  · have hlen : l.length ≤ n := Nat.le_of_not_le hn
    have h1 : l.drop n = [] := List.drop_eq_nil_of_le hlen
    have h2 : l.drop l.length = [] := List.drop_eq_nil_of_le (Nat.le_refl _)
    have := hall l.length (List.mem_range.mpr (Nat.lt_succ_of_le (Nat.le_refl _)))
    rw [h1]
    rw [h2] at this
    simpa [Option.isNone_iff_eq_none] using this

theorem scanAux_prepend {tm : Chars → Option (Chars × Chars)} :
    ∀ (P : Chars) (S : Chars) (f : Nat),
      (∀ c ∈ P, ∀ l2 : Chars, tm (c :: l2) = none) →
      scanAux tm (P.length + f) (P ++ S) = P ++ scanAux tm f S := by
  intro P
  induction P with
  | nil => intro S f _; simp
  | cons c cs ih =>
    intro S f hh
    have h0 : tm (c :: (cs ++ S)) = none := hh c (by simp) _
    have : cs.length + 1 + f = (cs.length + f) + 1 := by omega
    simp only [List.cons_append, List.length_cons, this, scanAux, h0]
    rw [ih S f (fun x hx l2 => hh x (by simp [hx]) l2)]

theorem scanAux_head {tm : Chars → Option (Chars × Chars)} {c : Char} {cs r : Chars}
    (f : Nat) (h : tm (c :: cs) = some (r, [])) :
    scanAux tm (f + 1) (c :: cs) = r := by
  simp [scanAux, h, scanAux_nil]

theorem scanSub_all {tm : Chars → Option (Chars × Chars)} {c : Char} {cs r : Chars}
    (h : tm (c :: cs) = some (r, [])) : scanSub tm (c :: cs) = r := by
  show scanAux tm (c :: cs).length (c :: cs) = r
  simp only [List.length_cons]
  exact scanAux_head cs.length h

theorem scanSub_split {tm : Chars → Option (Chars × Chars)} {P : Chars} {c : Char}
    {cs r : Chars} (hh : ∀ x ∈ P, ∀ l2 : Chars, tm (x :: l2) = none)
    (h : tm (c :: cs) = some (r, [])) :
    scanSub tm (P ++ c :: cs) = P ++ r := by
  show scanAux tm (P ++ c :: cs).length (P ++ c :: cs) = P ++ r
  rw [List.length_append, List.length_cons, scanAux_prepend P (c :: cs) _ hh,
    scanAux_head cs.length h]

theorem litFrom_eq : litFrom = 'f' :: 'r' :: 'o' :: 'm' :: [] := by decide

theorem litImport_eq : litImport = 'i' :: 'm' :: 'p' :: 'o' :: 'r' :: 't' :: [] := by decide

theorem fromQuote_eq : ("from \x27").data = 'f' :: 'r' :: 'o' :: 'm' :: ' ' :: qc :: [] := by
  decide

theorem isSpc_space : isSpc ' ' = true := by decide

theorem isSpc_qc : isSpc qc = false := by decide

theorem isQ_qc : isQ qc = true := by decide

theorem matchFromTypes_nil : matchFromTypes [] = none := rfl

theorem matchFromTypes_head {c : Char} (l : Chars) (h : c ≠ 'f') :
    matchFromTypes (c :: l) = none := by
  unfold matchFromTypes
  rw [litFrom_eq]
  simp [matchLit, h]

theorem tryP1_nil : tryP1 [] = none := rfl

theorem tryP1_head (c : Char) (l : Chars) (h : c ≠ 'f') : tryP1 (c :: l) = none := by
  simp [tryP1, matchFromTypes_head l h]

theorem tryP2_nil : tryP2 [] = none := rfl

theorem tryP2_head (c : Char) (l : Chars) (h : c ≠ 'i') : tryP2 (c :: l) = none := by
  unfold tryP2
  rw [litImport_eq]
  simp [matchLit, h]

theorem trySdk_nil : trySdk [] = none := rfl

theorem trySdk_head (c : Char) (l : Chars) (h : c ≠ 'f') : trySdk (c :: l) = none := by
  unfold trySdk matchSdkRoot
  rw [show litFromSpace = 'f' :: 'r' :: 'o' :: 'm' :: ' ' :: [] from by decide]
  simp [matchLit, h]

theorem matchUtilsWith_head (sub : Chars) (c : Char) (l : Chars) (h : c ≠ 'f') :
    matchUtilsWith sub (c :: l) = none := by
  unfold matchUtilsWith
  rw [litFrom_eq]
  simp [matchLit, h]

theorem tryR1_nil : tryR1 [] = none := rfl

theorem tryR1_head (c : Char) (l : Chars) (h : c ≠ 'f') : tryR1 (c :: l) = none := by
  simp [tryR1, matchUtilsWith_head litUtilsHttp c l h]

theorem tryR2_nil : tryR2 [] = none := rfl

theorem tryR2_head (c : Char) (l : Chars) (h : c ≠ 'f') : tryR2 (c :: l) = none := by
  simp [tryR2, matchUtilsWith_head litUtilsLlm c l h]

theorem tryR3_nil : tryR3 [] = none := rfl

theorem tryR3_head (c : Char) (l : Chars) (h : c ≠ 'f') : tryR3 (c :: l) = none := by
  simp [tryR3, matchUtilsWith_head litUtils c l h]

theorem parseDotDot_dots : ∀ (d : Nat) (r : Chars),
    parseDotDot (dotsL d ++ r) = (d + (parseDotDot r).1, (parseDotDot r).2) := by
  intro d
  induction d with
  | zero => intro r; simp [dotsL]
  | succ e ih =>
    intro r
    show parseDotDot ('.' :: '.' :: '/' :: (dotsL e ++ r)) = _
    rw [show parseDotDot ('.' :: '.' :: '/' :: (dotsL e ++ r)) =
        ((parseDotDot (dotsL e ++ r)).1 + 1, (parseDotDot (dotsL e ++ r)).2) from rfl, ih]
    simp only [Prod.mk.injEq]
    exact ⟨by omega, trivial⟩

theorem parseDotOpt_dots : ∀ (d : Nat) (r : Chars),
    parseDotOpt (dotsL d ++ r) = (d + (parseDotOpt r).1, (parseDotOpt r).2) := by
  intro d
  induction d with
  | zero => intro r; simp [dotsL]
  | succ e ih =>
    intro r
    show parseDotOpt ('.' :: '.' :: '/' :: (dotsL e ++ r)) = _
    rw [show parseDotOpt ('.' :: '.' :: '/' :: (dotsL e ++ r)) =
        ((parseDotOpt (dotsL e ++ r)).1 + 1, (parseDotOpt (dotsL e ++ r)).2) from rfl, ih]
    simp only [Prod.mk.injEq]
    exact ⟨by omega, trivial⟩

theorem dotsL_chars : ∀ (d : Nat), ∀ c ∈ dotsL d, c = '.' ∨ c = '/' := by
  intro d
  induction d with
  | zero => intro c hc; simp [dotsL] at hc
  | succ e ih =>
    intro c hc
    simp only [dotsL, List.mem_cons] at hc
    rcases hc with rfl | rfl | rfl | h
    · exact Or.inl rfl
    · exact Or.inl rfl
    · exact Or.inr rfl
    · exact ih c h

theorem dots_avoid (d : Nat) (bad : Char) (hd : ('.' : Char) ≠ bad) (hs : ('/' : Char) ≠ bad) :
    ∀ c ∈ dotsL d, c ≠ bad := by
  intro c hc
  rcases dotsL_chars d c hc with rfl | rfl
  · exact hd
  · exact hs

theorem avoid_append {bad : Char} {A B : Chars} (ha : ∀ c ∈ A, c ≠ bad)
    (hb : ∀ c ∈ B, c ≠ bad) : ∀ c ∈ A ++ B, c ≠ bad := by
  intro c hc
  rcases List.mem_append.mp hc with h | h
  · exact ha c h
  · exact hb c h

theorem matchLit_self_append : ∀ (p t : Chars), matchLit p (p ++ t) = some t := by
  intro p
  induction p with
  | nil => intro t; rfl
  | cons a ps ih => intro t; simp [matchLit, ih]

theorem matchLit_append : ∀ (p q l : Chars),
    matchLit (p ++ q) l = Option.bind (matchLit p l) (matchLit q) := by
  intro p
  induction p with
  | nil => intro q l; rfl
  | cons a ps ih =>
    intro q l
    cases l with
    | nil => rfl
    | cons c cs =>
      show (if c = a then matchLit (ps ++ q) cs else none) = _
      by_cases h : c = a
      · simp [matchLit, h, ih]
      · simp [matchLit, h]

theorem matchLit_sentinel : ∀ (p rest : Chars) (q0 : Char) (t : Chars),
    startsWithL p rest = false → (∀ c ∈ p, c ≠ q0) →
    matchLit p (rest ++ q0 :: t) = none := by
  intro p
  induction p with
  | nil => intro rest q0 t hs _; simp [startsWithL] at hs
  | cons a ps ih =>
    intro rest q0 t hs hq
    cases rest with
    | nil =>
      show (if q0 = a then matchLit ps t else none) = none
      have : q0 ≠ a := fun h => (hq a (by simp)) h.symm
      simp [this]
    | cons r rs =>
      show (if r = a then matchLit ps (rs ++ q0 :: t) else none) = none
      by_cases h : a = r
      · subst h
        have hs2 : startsWithL ps rs = false := by
          simpa [startsWithL] using hs
        simp [ih rs q0 t hs2 (fun c hc => hq c (by simp [hc]))]
      · have : r ≠ a := fun hh => h hh.symm
        simp [this]

/-- If no suffix of the text matches the from-types tail, the lazy gap
scan fails, whatever the newline content. -/
theorem findFromTail_none : ∀ (l : Chars), NoMatchAll matchFromTypes l →
    findFromTail l = none := by
  intro l
  induction l with
  | nil => intro _; rfl
  | cons c cs ih =>
    intro h
    have h0 : matchFromTypes (c :: cs) = none := by simpa using h 0
    by_cases hn : c = '\n'
    · subst hn
      simp [findFromTail, h0]
    · simp [findFromTail, h0, hn, ih (nma_tail h)]

/-- Evaluation of the from-types recognizer at a statement beginning with
the word from, one space and a single quote. -/
theorem matchFromTypes_at (l3 : Chars) :
    matchFromTypes ('f' :: 'r' :: 'o' :: 'm' :: ' ' :: qc :: l3) =
      (if 1 ≤ (parseDotDot l3).1 then
        if (parseDotDot l3).1 ≤ 6 then
          (match matchLit litTypesSlash (parseDotDot l3).2 with
           | none => none
           | some l4 => matchCapture l4)
        else none
       else none) := by
  unfold matchFromTypes
  rw [litFrom_eq]
  simp [matchLit, matchSpaces1, matchQuote, List.takeWhile, List.dropWhile,
    isSpc_space, isSpc_qc, isQ_qc]

/-- On a submodule statement with depth in bounds, the recognizer matches
the whole statement and captures the submodule. -/
theorem matchFromTypes_sub (d : Nat) (h1 : 1 ≤ d) (h6 : d ≤ 6) :
    matchFromTypes ('f' :: 'r' :: 'o' :: 'm' :: ' ' :: qc ::
        (dotsL d ++ ("types/widgets\x27").data)) =
      some (("widgets").data, []) := by
  rw [matchFromTypes_at, parseDotDot_dots,
    show parseDotDot (("types/widgets\x27").data) = (0, ("types/widgets\x27").data) from by
      decide]
  simp only [Nat.add_zero]
  rw [if_pos h1, if_pos h6]
  decide

/-- On a submodule statement with depth out of bounds, the recognizer
fails. -/
theorem matchFromTypes_sub_none (d : Nat) (h : ¬(1 ≤ d ∧ d ≤ 6)) :
    matchFromTypes ('f' :: 'r' :: 'o' :: 'm' :: ' ' :: qc ::
        (dotsL d ++ ("types/widgets\x27").data)) = none := by
  rw [matchFromTypes_at, parseDotDot_dots,
    show parseDotDot (("types/widgets\x27").data) = (0, ("types/widgets\x27").data) from by
      decide]
  simp only [Nat.add_zero]
  by_cases h1 : 1 ≤ d
  · have h6 : ¬ d ≤ 6 := fun hh => h ⟨h1, hh⟩
    rw [if_pos h1, if_neg h6]
  · rw [if_neg h1]

/-- On a root statement the recognizer always fails: the literal after
the traversal run requires a slash after the word types. -/
theorem matchFromTypes_root_none (d : Nat) :
    matchFromTypes ('f' :: 'r' :: 'o' :: 'm' :: ' ' :: qc ::
        (dotsL d ++ ("types\x27").data)) = none := by
  rw [matchFromTypes_at, parseDotDot_dots,
    show parseDotDot (("types\x27").data) = (0, ("types\x27").data) from by decide]
  simp only [Nat.add_zero]
  rw [show matchLit litTypesSlash (("types\x27").data) = none from by decide]
  by_cases h1 : 1 ≤ d
  · by_cases h6 : d ≤ 6
    · rw [if_pos h1, if_pos h6]
    · rw [if_pos h1, if_neg h6]
  · rw [if_neg h1]

theorem relSub_data (d : Nat) : (relSubStr d).data =
    'f' :: 'r' :: 'o' :: 'm' :: ' ' :: qc :: (dotsL d ++ ("types/widgets\x27").data) := by
  show ("from \x27").data ++ dotsL d ++ ("types/widgets\x27").data = _
  rw [fromQuote_eq]
  simp

theorem relRoot_data (d : Nat) : (relRootStr d).data =
    'f' :: 'r' :: 'o' :: 'm' :: ' ' :: qc :: (dotsL d ++ ("types\x27").data) := by
  show ("from \x27").data ++ dotsL d ++ ("types\x27").data = _
  rw [fromQuote_eq]
  simp

theorem named_data (d : Nat) : (namedStr d).data =
    ("import \x7b Foo, Bar \x7d ").data ++
      ('f' :: 'r' :: 'o' :: 'm' :: ' ' :: qc :: (dotsL d ++ ("types/widgets\x27").data)) := by
  show ("import \x7b Foo, Bar \x7d from \x27").data ++ dotsL d ++ ("types/widgets\x27").data = _
  rw [show ("import \x7b Foo, Bar \x7d from \x27").data =
      ("import \x7b Foo, Bar \x7d ").data ++ ('f' :: 'r' :: 'o' :: 'm' :: ' ' :: qc :: []) from by
    decide]
  simp

theorem relSub_rest_avoid_f (d : Nat) :
    ∀ c ∈ ('r' :: 'o' :: 'm' :: ' ' :: qc :: []) ++
      (dotsL d ++ ("types/widgets\x27").data), c ≠ 'f' :=
  avoid_append (by decide)
    (avoid_append (dots_avoid d 'f' (by decide) (by decide)) (by decide))

theorem relRoot_rest_avoid_f (d : Nat) :
    ∀ c ∈ ('r' :: 'o' :: 'm' :: ' ' :: qc :: []) ++
      (dotsL d ++ ("types\x27").data), c ≠ 'f' :=
  avoid_append (by decide)
    (avoid_append (dots_avoid d 'f' (by decide) (by decide)) (by decide))

theorem tryP1_sub (d : Nat) (h1 : 1 ≤ d) (h6 : d ≤ 6) :
    tryP1 ('f' :: 'r' :: 'o' :: 'm' :: ' ' :: qc ::
        (dotsL d ++ ("types/widgets\x27").data)) =
      some ((aliasSubStr).data, []) := by
  unfold tryP1
  rw [matchFromTypes_sub d h1 h6]
  show some (replP1 (("widgets").data), []) = _
  rw [show replP1 (("widgets").data) = (aliasSubStr).data from by decide]

/-- No suffix of the from-types statement matches the recognizer when the
depth is out of bounds. -/
theorem nma_mft_fromSub (d : Nat) (h : ¬(1 ≤ d ∧ d ≤ 6)) :
    NoMatchAll matchFromTypes
      ('f' :: 'r' :: 'o' :: 'm' :: ' ' :: qc ::
        (dotsL d ++ ("types/widgets\x27").data)) := by
  refine nma_cons (matchFromTypes_sub_none d h) ?_
  exact nma_of_heads _ matchFromTypes_nil
    (fun c hc l2 => matchFromTypes_head l2 (relSub_rest_avoid_f d c hc))

theorem nma_tryP1_fromSub (d : Nat) (h : ¬(1 ≤ d ∧ d ≤ 6)) :
    NoMatchAll tryP1
      ('f' :: 'r' :: 'o' :: 'm' :: ' ' :: qc ::
        (dotsL d ++ ("types/widgets\x27").data)) := by
  refine nma_cons (by simp [tryP1, matchFromTypes_sub_none d h]) ?_
  exact nma_of_heads _ tryP1_nil
    (fun c hc l2 => tryP1_head c l2 (relSub_rest_avoid_f d c hc))

theorem nma_tryP1_fromRoot (d : Nat) :
    NoMatchAll tryP1
      ('f' :: 'r' :: 'o' :: 'm' :: ' ' :: qc ::
        (dotsL d ++ ("types\x27").data)) := by
  refine nma_cons (by simp [tryP1, matchFromTypes_root_none d]) ?_
  exact nma_of_heads _ tryP1_nil
    (fun c hc l2 => tryP1_head c l2 (relRoot_rest_avoid_f d c hc))

theorem scanSub_tryP1_relSub (d : Nat) (h1 : 1 ≤ d) (h6 : d ≤ 6) :
    scanSub tryP1 ((relSubStr d).data) = (aliasSubStr).data := by
  rw [relSub_data]
  exact scanSub_all (tryP1_sub d h1 h6)

theorem scanSub_tryP1_relSub_id (d : Nat) (h : ¬(1 ≤ d ∧ d ≤ 6)) :
    scanSub tryP1 ((relSubStr d).data) = (relSubStr d).data := by
  rw [relSub_data]
  exact scanSub_of_nma (nma_tryP1_fromSub d h)

theorem scanSub_tryP1_relRoot_id (d : Nat) :
    scanSub tryP1 ((relRootStr d).data) = (relRootStr d).data := by
  rw [relRoot_data]
  exact scanSub_of_nma (nma_tryP1_fromRoot d)

theorem namedPrefix_avoid_f : ∀ c ∈ ("import \x7b Foo, Bar \x7d ").data, c ≠ 'f' := by
  decide

theorem scanSub_tryP1_named (d : Nat) (h1 : 1 ≤ d) (h6 : d ≤ 6) :
    scanSub tryP1 ((namedStr d).data) = (namedAliasStr).data := by
  rw [named_data]
  rw [scanSub_split (fun x hx l2 => tryP1_head x l2 (namedPrefix_avoid_f x hx))
    (tryP1_sub d h1 h6)]
  decide

theorem scanSub_tryP1_named_id (d : Nat) (h : ¬(1 ≤ d ∧ d ≤ 6)) :
    scanSub tryP1 ((namedStr d).data) = (namedStr d).data := by
  rw [named_data]
  apply scanSub_of_nma
  exact nma_append_heads _ _
    (fun x hx l2 => tryP1_head x l2 (namedPrefix_avoid_f x hx))
    (nma_tryP1_fromSub d h)

theorem matchSpaces1_space_brace (r : Chars) :
    matchSpaces1 (' ' :: '{' :: r) = some ('{' :: r) := by
  simp [matchSpaces1, List.takeWhile, List.dropWhile, isSpc_space,
    show isSpc '{' = false from by decide]

/-- The second pattern fails on the whole named statement when the depth
is out of bounds: the lazy gap never finds a matching from-types tail. -/
theorem tryP2_named_none (d : Nat) (h : ¬(1 ≤ d ∧ d ≤ 6)) :
    tryP2 (("import \x7b Foo, Bar \x7d ").data ++
      ('f' :: 'r' :: 'o' :: 'm' :: ' ' :: qc ::
        (dotsL d ++ ("types/widgets\x27").data))) = none := by
  have eBig : ("import \x7b Foo, Bar \x7d ").data ++
      ('f' :: 'r' :: 'o' :: 'm' :: ' ' :: qc ::
        (dotsL d ++ ("types/widgets\x27").data)) =
      litImport ++ (' ' :: '{' :: ((" Foo, Bar \x7d ").data ++
        ('f' :: 'r' :: 'o' :: 'm' :: ' ' :: qc ::
          (dotsL d ++ ("types/widgets\x27").data)))) := by
    rw [show ("import \x7b Foo, Bar \x7d ").data =
        litImport ++ (' ' :: '{' :: (" Foo, Bar \x7d ").data) from by decide]
    simp
  have e3 : findFromTail ('{' :: ((" Foo, Bar \x7d ").data ++
      ('f' :: 'r' :: 'o' :: 'm' :: ' ' :: qc ::
        (dotsL d ++ ("types/widgets\x27").data)))) = none := by
    rw [show ('{' :: ((" Foo, Bar \x7d ").data ++
        ('f' :: 'r' :: 'o' :: 'm' :: ' ' :: qc ::
          (dotsL d ++ ("types/widgets\x27").data)))) =
        ('{' :: (" Foo, Bar \x7d ").data) ++
          ('f' :: 'r' :: 'o' :: 'm' :: ' ' :: qc ::
            (dotsL d ++ ("types/widgets\x27").data)) from by simp]
    exact findFromTail_none _ (nma_append_heads _ _
      (fun c hc l2 => matchFromTypes_head l2 ((by decide :
        ∀ x ∈ ('{' :: (" Foo, Bar \x7d ").data), x ≠ 'f') c hc))
      (nma_mft_fromSub d h))
  simp at e3
  simp [tryP2, eBig, matchLit_self_append, matchSpaces1_space_brace, e3]

theorem nma_tryP2_named_id (d : Nat) (h : ¬(1 ≤ d ∧ d ≤ 6)) :
    NoMatchAll tryP2 ((namedStr d).data) := by
  rw [named_data]
  rw [show ("import \x7b Foo, Bar \x7d ").data ++
      ('f' :: 'r' :: 'o' :: 'm' :: ' ' :: qc ::
        (dotsL d ++ ("types/widgets\x27").data)) =
      'i' :: (("mport \x7b Foo, Bar \x7d ").data ++
        ('f' :: 'r' :: 'o' :: 'm' :: ' ' :: qc ::
          (dotsL d ++ ("types/widgets\x27").data))) from by simp]
  refine nma_cons ?_ ?_
  · have h2 := tryP2_named_none d h
    rw [show ("import \x7b Foo, Bar \x7d ").data ++
        ('f' :: 'r' :: 'o' :: 'm' :: ' ' :: qc ::
          (dotsL d ++ ("types/widgets\x27").data)) =
        'i' :: (("mport \x7b Foo, Bar \x7d ").data ++
          ('f' :: 'r' :: 'o' :: 'm' :: ' ' :: qc ::
            (dotsL d ++ ("types/widgets\x27").data))) from by simp] at h2
    exact h2
  · refine nma_append_heads _ _
      (fun x hx l2 => tryP2_head x l2 ((by decide :
        ∀ c ∈ ("mport \x7b Foo, Bar \x7d ").data, c ≠ 'i') x hx)) ?_
    refine nma_append_heads ('f' :: 'r' :: 'o' :: 'm' :: ' ' :: qc :: []) _
      (fun x hx l2 => tryP2_head x l2 ((by decide :
        ∀ c ∈ ('f' :: 'r' :: 'o' :: 'm' :: ' ' :: qc :: []), c ≠ 'i') x hx)) ?_
    refine nma_append_heads _ _
      (fun x hx l2 => tryP2_head x l2 (dots_avoid d 'i' (by decide) (by decide) x hx)) ?_
    exact nma_of_bool (by decide)

theorem scanSub_tryP2_named_id (d : Nat) (h : ¬(1 ≤ d ∧ d ≤ 6)) :
    scanSub tryP2 ((namedStr d).data) = (namedStr d).data :=
  scanSub_of_nma (nma_tryP2_named_id d h)

theorem nma_tryP2_relSub (d : Nat) : NoMatchAll tryP2 ((relSubStr d).data) := by
  rw [relSub_data]
  refine nma_append_heads ('f' :: 'r' :: 'o' :: 'm' :: ' ' :: qc :: []) _
    (fun x hx l2 => tryP2_head x l2 ((by decide :
      ∀ c ∈ ('f' :: 'r' :: 'o' :: 'm' :: ' ' :: qc :: []), c ≠ 'i') x hx)) ?_
  refine nma_append_heads _ _
    (fun x hx l2 => tryP2_head x l2 (dots_avoid d 'i' (by decide) (by decide) x hx)) ?_
  exact nma_of_bool (by decide)

theorem scanSub_tryP2_relSub_id (d : Nat) :
    scanSub tryP2 ((relSubStr d).data) = (relSubStr d).data := by
  rw [relSub_data]
  have h2 := scanSub_of_nma (nma_tryP2_relSub d)
  rw [relSub_data] at h2
  exact h2

theorem nma_tryP2_relRoot (d : Nat) : NoMatchAll tryP2 ((relRootStr d).data) := by
  rw [relRoot_data]
  refine nma_append_heads ('f' :: 'r' :: 'o' :: 'm' :: ' ' :: qc :: []) _
    (fun x hx l2 => tryP2_head x l2 ((by decide :
      ∀ c ∈ ('f' :: 'r' :: 'o' :: 'm' :: ' ' :: qc :: []), c ≠ 'i') x hx)) ?_
  refine nma_append_heads _ _
    (fun x hx l2 => tryP2_head x l2 (dots_avoid d 'i' (by decide) (by decide) x hx)) ?_
  exact nma_of_heads _ tryP2_nil
    (fun c hc l2 => tryP2_head c l2 ((by decide :
      ∀ x ∈ ("types\x27").data, x ≠ 'i') c hc))

theorem scanSub_tryP2_relRoot_id (d : Nat) :
    scanSub tryP2 ((relRootStr d).data) = (relRootStr d).data := by
  rw [relRoot_data]
  have h2 := scanSub_of_nma (nma_tryP2_relRoot d)
  rw [relRoot_data] at h2
  exact h2

theorem fromSpace_eq : litFromSpace = 'f' :: 'r' :: 'o' :: 'm' :: ' ' :: [] := by decide

theorem matchLit_head_ne (a : Char) (ps : Chars) (c : Char) (cs : Chars) (h : c ≠ a) :
    matchLit (a :: ps) (c :: cs) = none := by
  simp [matchLit, h]

theorem matchLit_at_dots (a : Char) (ps : Chars) (d : Nat) (r : Chars)
    (h0 : matchLit (a :: ps) r = none) (ha : a ≠ '.') :
    matchLit (a :: ps) (dotsL d ++ r) = none := by
  cases d with
  | zero => simpa using h0
  | succ e =>
    show matchLit (a :: ps) ('.' :: '.' :: '/' :: (dotsL e ++ r)) = none
    exact matchLit_head_ne a ps '.' _ (fun hh => ha hh.symm)

theorem trySdk_root (d : Nat) (h1 : 1 ≤ d) :
    trySdk ('f' :: 'r' :: 'o' :: 'm' :: ' ' :: qc :: (dotsL d ++ ("types\x27").data)) =
      some ((aliasRootStr).data, []) := by
  have eA : matchLit litFromSpace
      ('f' :: 'r' :: 'o' :: 'm' :: ' ' :: qc :: (dotsL d ++ ("types\x27").data)) =
      some (qc :: (dotsL d ++ ("types\x27").data)) := by
    rw [fromSpace_eq]
    simp [matchLit]
  have eB : matchQuote (qc :: (dotsL d ++ ("types\x27").data)) =
      some (dotsL d ++ ("types\x27").data) := by
    simp [matchQuote, isQ_qc]
  have eC : parseDotOpt (dotsL d ++ ("types\x27").data) = (d, ("types\x27").data) := by
    rw [parseDotOpt_dots,
      show parseDotOpt (("types\x27").data) = (0, ("types\x27").data) from by decide]
    simp
  have eD : matchLit litTypes (("types\x27").data) = some ([qc]) := by decide
  have eE : matchQuote ([qc]) = some [] := by decide
  have hd0 : ¬ (d = 0) := by omega
  have eF : sdkReplL = (aliasRootStr).data := by decide
  simp at eA eC eD eE eF
  simp [trySdk, matchSdkRoot, eA, eB, eC, eD, eE, hd0, eF]

theorem trySdk_relSub_none (d : Nat) :
    trySdk ('f' :: 'r' :: 'o' :: 'm' :: ' ' :: qc ::
      (dotsL d ++ ("types/widgets\x27").data)) = none := by
  have eA : matchLit litFromSpace
      ('f' :: 'r' :: 'o' :: 'm' :: ' ' :: qc :: (dotsL d ++ ("types/widgets\x27").data)) =
      some (qc :: (dotsL d ++ ("types/widgets\x27").data)) := by
    rw [fromSpace_eq]
    simp [matchLit]
  have eB : matchQuote (qc :: (dotsL d ++ ("types/widgets\x27").data)) =
      some (dotsL d ++ ("types/widgets\x27").data) := by
    simp [matchQuote, isQ_qc]
  have eC : parseDotOpt (dotsL d ++ ("types/widgets\x27").data) =
      (d, ("types/widgets\x27").data) := by
    rw [parseDotOpt_dots,
      show parseDotOpt (("types/widgets\x27").data) = (0, ("types/widgets\x27").data) from by
        decide]
    simp
  have eD : matchLit litTypes (("types/widgets\x27").data) = some (("/widgets\x27").data) := by
    decide
  have eE : matchQuote (("/widgets\x27").data) = none := by decide
  simp at eA eC eD eE
  by_cases hd : d = 0
  · subst hd
    simp [trySdk, matchSdkRoot, eA, eB, eC]
  · simp [trySdk, matchSdkRoot, eA, eB, eC, eD, eE, hd]

theorem scanSub_trySdk_relRoot (d : Nat) (h1 : 1 ≤ d) :
    scanSub trySdk ((relRootStr d).data) = (aliasRootStr).data := by
  rw [relRoot_data]
  exact scanSub_all (trySdk_root d h1)

theorem nma_trySdk_relSub (d : Nat) : NoMatchAll trySdk ((relSubStr d).data) := by
  rw [relSub_data]
  refine nma_cons (trySdk_relSub_none d) ?_
  exact nma_of_heads _ trySdk_nil
    (fun c hc l2 => trySdk_head c l2 (relSub_rest_avoid_f d c hc))

theorem scanSub_trySdk_relSub_id (d : Nat) :
    scanSub trySdk ((relSubStr d).data) = (relSubStr d).data := by
  rw [relSub_data]
  have h2 := scanSub_of_nma (nma_trySdk_relSub d)
  rw [relSub_data] at h2
  exact h2

theorem trySdk_relRoot_none_zero :
    trySdk ('f' :: 'r' :: 'o' :: 'm' :: ' ' :: qc :: (dotsL 0 ++ ("types\x27").data)) =
      none := by
  decide

theorem nma_trySdk_relRoot_zero : NoMatchAll trySdk ((relRootStr 0).data) := by
  rw [relRoot_data]
  refine nma_cons trySdk_relRoot_none_zero ?_
  exact nma_of_heads _ trySdk_nil
    (fun c hc l2 => trySdk_head c l2 (relRoot_rest_avoid_f 0 c hc))

theorem scanSub_trySdk_relRoot_id_zero :
    scanSub trySdk ((relRootStr 0).data) = (relRootStr 0).data := by
  rw [relRoot_data]
  have h2 := scanSub_of_nma nma_trySdk_relRoot_zero
  rw [relRoot_data] at h2
  exact h2

/-- Evaluation of the restore recognizer at a statement beginning with the
word from, one space and a single quote. -/
theorem matchUtilsWith_at (sub : Chars) (l3 : Chars) :
    matchUtilsWith sub ('f' :: 'r' :: 'o' :: 'm' :: ' ' :: qc :: l3) =
      (match matchLit sub l3 with
       | none => none
       | some l4 => matchCapture l4) := by
  unfold matchUtilsWith
  rw [litFrom_eq]
  simp [matchLit, matchSpaces1, matchQuote, List.takeWhile, List.dropWhile,
    isSpc_space, isSpc_qc, isQ_qc]

theorem takeWhile_sentinel (p : Char → Bool) :
    ∀ (A : Chars) (q0 : Char) (t : Chars),
      (∀ c ∈ A, p c = true) → p q0 = false →
      (A ++ q0 :: t).takeWhile p = A ∧ (A ++ q0 :: t).dropWhile p = q0 :: t := by
  intro A
  induction A with
  | nil =>
    intro q0 t _ hq
    simp [List.takeWhile, List.dropWhile, hq]
  | cons a as ih =>
    intro q0 t hA hq
    have ha : p a = true := hA a (by simp)
    have h2 := ih q0 t (fun c hc => hA c (by simp [hc])) hq
    simp [List.takeWhile, List.dropWhile, ha, h2.1, h2.2]

theorem matchCapture_all (rest : Chars) (hne : rest ≠ [])
    (hq : ∀ c ∈ rest, isQ c = false) :
    matchCapture (rest ++ [qc]) = some (rest, []) := by
  have h2 := takeWhile_sentinel (fun c => ! isQ c) rest qc []
    (fun c hc => by simp [hq c hc]) (by simp [isQ_qc])
  unfold matchCapture
  rw [h2.1, h2.2]
  cases rest with
  | nil => exact absurd rfl hne
  | cons a as => rfl

/-- The restore recognizer matches a whole alias statement whose package
path starts with the given literal and captures the trailing path. -/
theorem matchUtilsWith_capture (sub rest : Chars) (hne : rest ≠ [])
    (hq : ∀ c ∈ rest, isQ c = false) :
    matchUtilsWith sub
      ('f' :: 'r' :: 'o' :: 'm' :: ' ' :: qc :: (sub ++ (rest ++ [qc]))) =
      some (rest, []) := by
  rw [matchUtilsWith_at, matchLit_self_append]
  exact matchCapture_all rest hne hq

theorem httpStmt_data (r : String) : (httpStmtStr r).data =
    'f' :: 'r' :: 'o' :: 'm' :: ' ' :: qc :: (litUtilsHttp ++ (r.data ++ [qc])) := by
  show ("from \x27@modular-agent/common-utils/http/").data ++ r.data ++ [qc] = _
  rw [show ("from \x27@modular-agent/common-utils/http/").data =
      ('f' :: 'r' :: 'o' :: 'm' :: ' ' :: qc :: []) ++ litUtilsHttp from by decide]
  simp

theorem llmStmt_data (r : String) : (llmStmtStr r).data =
    'f' :: 'r' :: 'o' :: 'm' :: ' ' :: qc :: (litUtilsLlm ++ (r.data ++ [qc])) := by
  show ("from \x27@modular-agent/common-utils/llm/").data ++ r.data ++ [qc] = _
  rw [show ("from \x27@modular-agent/common-utils/llm/").data =
      ('f' :: 'r' :: 'o' :: 'm' :: ' ' :: qc :: []) ++ litUtilsLlm from by decide]
  simp

theorem utilStmt_data (r : String) : (utilStmtStr r).data =
    'f' :: 'r' :: 'o' :: 'm' :: ' ' :: qc :: (litUtils ++ (r.data ++ [qc])) := by
  show ("from \x27@modular-agent/common-utils/").data ++ r.data ++ [qc] = _
  rw [show ("from \x27@modular-agent/common-utils/").data =
      ('f' :: 'r' :: 'o' :: 'm' :: ' ' :: qc :: []) ++ litUtils from by decide]
  simp

theorem replSameDir_shape (rest : Chars) : replSameDir rest =
    'f' :: 'r' :: 'o' :: 'm' :: ' ' :: qc :: ('.' :: '/' :: (rest ++ [qc])) := by
  show ("from \x27./").data ++ rest ++ [qc] = _
  rw [show ("from \x27./").data =
      ('f' :: 'r' :: 'o' :: 'm' :: ' ' :: qc :: '.' :: '/' :: []) from by decide]
  simp

theorem replParentDir_shape (rest : Chars) : replParentDir rest =
    'f' :: 'r' :: 'o' :: 'm' :: ' ' :: qc :: ('.' :: '.' :: '/' :: (rest ++ [qc])) := by
  show ("from \x27../").data ++ rest ++ [qc] = _
  rw [show ("from \x27../").data =
      ('f' :: 'r' :: 'o' :: 'm' :: ' ' :: qc :: '.' :: '.' :: '/' :: []) from by decide]
  simp

theorem tryR1_at_dot (x : Chars) :
    tryR1 ('f' :: 'r' :: 'o' :: 'm' :: ' ' :: qc :: ('.' :: x)) = none := by
  have hml : matchLit litUtilsHttp ('.' :: x) = none := by
    rw [show litUtilsHttp = '@' :: (("modular-agent/common-utils/http/").data) from by decide]
    exact matchLit_head_ne '@' _ '.' x (by decide)
  have e := matchUtilsWith_at litUtilsHttp ('.' :: x)
  rw [hml] at e
  simp [tryR1, e]

theorem tryR2_at_dot (x : Chars) :
    tryR2 ('f' :: 'r' :: 'o' :: 'm' :: ' ' :: qc :: ('.' :: x)) = none := by
  have hml : matchLit litUtilsLlm ('.' :: x) = none := by
    rw [show litUtilsLlm = '@' :: (("modular-agent/common-utils/llm/").data) from by decide]
    exact matchLit_head_ne '@' _ '.' x (by decide)
  have e := matchUtilsWith_at litUtilsLlm ('.' :: x)
  rw [hml] at e
  simp [tryR2, e]

theorem tryR3_at_dot (x : Chars) :
    tryR3 ('f' :: 'r' :: 'o' :: 'm' :: ' ' :: qc :: ('.' :: x)) = none := by
  have hml : matchLit litUtils ('.' :: x) = none := by
    rw [show litUtils = '@' :: (("modular-agent/common-utils/").data) from by decide]
    exact matchLit_head_ne '@' _ '.' x (by decide)
  have e := matchUtilsWith_at litUtils ('.' :: x)
  rw [hml] at e
  simp [tryR3, e]

theorem tryR1_on_llm (x : Chars) :
    tryR1 ('f' :: 'r' :: 'o' :: 'm' :: ' ' :: qc :: (litUtilsLlm ++ x)) = none := by
  have hml : matchLit litUtilsHttp (litUtilsLlm ++ x) = none := by
    rw [show litUtilsHttp = litUtils ++ (("http/").data) from by decide,
      show litUtilsLlm = litUtils ++ (("llm/").data) from by decide,
      List.append_assoc, matchLit_append, matchLit_self_append]
    show matchLit (("http/").data) ((("llm/").data) ++ x) = none
    rw [show ("http/").data = 'h' :: (("ttp/").data) from by decide]
    exact matchLit_head_ne 'h' _ 'l' _ (by decide)
  have e := matchUtilsWith_at litUtilsHttp (litUtilsLlm ++ x)
  rw [hml] at e
  simp [tryR1, e]

theorem tryR1_on_util (rest : Chars) (hh : startsWithL (("http/").data) rest = false) :
    tryR1 ('f' :: 'r' :: 'o' :: 'm' :: ' ' :: qc :: (litUtils ++ (rest ++ [qc]))) =
      none := by
  have hml : matchLit litUtilsHttp (litUtils ++ (rest ++ [qc])) = none := by
    rw [show litUtilsHttp = litUtils ++ (("http/").data) from by decide,
      matchLit_append, matchLit_self_append]
    show matchLit (("http/").data) (rest ++ qc :: []) = none
    exact matchLit_sentinel _ rest qc [] hh (by decide)
  have e := matchUtilsWith_at litUtilsHttp (litUtils ++ (rest ++ [qc]))
  rw [hml] at e
  simp [tryR1, e]

theorem tryR2_on_util (rest : Chars) (hl : startsWithL (("llm/").data) rest = false) :
    tryR2 ('f' :: 'r' :: 'o' :: 'm' :: ' ' :: qc :: (litUtils ++ (rest ++ [qc]))) =
      none := by
  have hml : matchLit litUtilsLlm (litUtils ++ (rest ++ [qc])) = none := by
    rw [show litUtilsLlm = litUtils ++ (("llm/").data) from by decide,
      matchLit_append, matchLit_self_append]
    show matchLit (("llm/").data) (rest ++ qc :: []) = none
    exact matchLit_sentinel _ rest qc [] hl (by decide)
  have e := matchUtilsWith_at litUtilsLlm (litUtils ++ (rest ++ [qc]))
  rw [hml] at e
  simp [tryR2, e]

theorem tryR1_http_match (rest : Chars) (hne : rest ≠ [])
    (hq : ∀ c ∈ rest, isQ c = false) :
    tryR1 ('f' :: 'r' :: 'o' :: 'm' :: ' ' :: qc :: (litUtilsHttp ++ (rest ++ [qc]))) =
      some (replSameDir rest, []) := by
  simp [tryR1, matchUtilsWith_capture litUtilsHttp rest hne hq]

theorem tryR2_llm_match (rest : Chars) (hne : rest ≠ [])
    (hq : ∀ c ∈ rest, isQ c = false) :
    tryR2 ('f' :: 'r' :: 'o' :: 'm' :: ' ' :: qc :: (litUtilsLlm ++ (rest ++ [qc]))) =
      some (replSameDir rest, []) := by
  simp [tryR2, matchUtilsWith_capture litUtilsLlm rest hne hq]

theorem tryR3_util_match (rest : Chars) (hne : rest ≠ [])
    (hq : ∀ c ∈ rest, isQ c = false) :
    tryR3 ('f' :: 'r' :: 'o' :: 'm' :: ' ' :: qc :: (litUtils ++ (rest ++ [qc]))) =
      some (replParentDir rest, []) := by
  simp [tryR3, matchUtilsWith_capture litUtils rest hne hq]

theorem scanSub_tryR1_http (r : String) (hne : r.data ≠ [])
    (hq : ∀ c ∈ r.data, isQ c = false) :
    scanSub tryR1 ((httpStmtStr r).data) = replSameDir r.data := by
  rw [httpStmt_data]
  exact scanSub_all (tryR1_http_match r.data hne hq)

theorem nma_tryR2_sameDir (rest : Chars) (hf : ∀ c ∈ rest, c ≠ 'f') :
    NoMatchAll tryR2 (replSameDir rest) := by
  rw [replSameDir_shape]
  refine nma_cons (tryR2_at_dot _) ?_
  exact nma_of_heads _ tryR2_nil (fun c hc l2 => tryR2_head c l2
    ((avoid_append (by decide) (avoid_append hf (by decide)) :
      ∀ c ∈ ('r' :: 'o' :: 'm' :: ' ' :: qc :: '.' :: '/' :: []) ++ (rest ++ [qc]),
        c ≠ 'f') c hc))

theorem scanSub_tryR2_sameDir (rest : Chars) (hf : ∀ c ∈ rest, c ≠ 'f') :
    scanSub tryR2 (replSameDir rest) = replSameDir rest :=
  scanSub_of_nma (nma_tryR2_sameDir rest hf)

theorem nma_tryR3_sameDir (rest : Chars) (hf : ∀ c ∈ rest, c ≠ 'f') :
    NoMatchAll tryR3 (replSameDir rest) := by
  rw [replSameDir_shape]
  refine nma_cons (tryR3_at_dot _) ?_
  exact nma_of_heads _ tryR3_nil (fun c hc l2 => tryR3_head c l2
    ((avoid_append (by decide) (avoid_append hf (by decide)) :
      ∀ c ∈ ('r' :: 'o' :: 'm' :: ' ' :: qc :: '.' :: '/' :: []) ++ (rest ++ [qc]),
        c ≠ 'f') c hc))

theorem scanSub_tryR3_sameDir (rest : Chars) (hf : ∀ c ∈ rest, c ≠ 'f') :
    scanSub tryR3 (replSameDir rest) = replSameDir rest :=
  scanSub_of_nma (nma_tryR3_sameDir rest hf)

theorem scanSub_tryR1_llm_id (r : String) (hf : ∀ c ∈ r.data, c ≠ 'f') :
    scanSub tryR1 ((llmStmtStr r).data) = (llmStmtStr r).data := by
  rw [llmStmt_data]
  refine scanSub_of_nma ?_
  refine nma_cons (tryR1_on_llm _) ?_
  exact nma_of_heads _ tryR1_nil (fun c hc l2 => tryR1_head c l2
    ((avoid_append (by decide) (avoid_append (by decide)
        (avoid_append hf (by decide))) :
      ∀ c ∈ ('r' :: 'o' :: 'm' :: ' ' :: qc :: []) ++ (litUtilsLlm ++ (r.data ++ [qc])),
        c ≠ 'f') c hc))

theorem scanSub_tryR2_llm (r : String) (hne : r.data ≠ [])
    (hq : ∀ c ∈ r.data, isQ c = false) :
    scanSub tryR2 ((llmStmtStr r).data) = replSameDir r.data := by
  rw [llmStmt_data]
  exact scanSub_all (tryR2_llm_match r.data hne hq)

theorem scanSub_tryR1_util_id (r : String) (hf : ∀ c ∈ r.data, c ≠ 'f')
    (hh : startsWithL (("http/").data) r.data = false) :
    scanSub tryR1 ((utilStmtStr r).data) = (utilStmtStr r).data := by
  rw [utilStmt_data]
  refine scanSub_of_nma ?_
  refine nma_cons (tryR1_on_util r.data hh) ?_
  exact nma_of_heads _ tryR1_nil (fun c hc l2 => tryR1_head c l2
    ((avoid_append (by decide) (avoid_append (by decide)
        (avoid_append hf (by decide))) :
      ∀ c ∈ ('r' :: 'o' :: 'm' :: ' ' :: qc :: []) ++ (litUtils ++ (r.data ++ [qc])),
        c ≠ 'f') c hc))

theorem scanSub_tryR2_util_id (r : String) (hf : ∀ c ∈ r.data, c ≠ 'f')
    (hl : startsWithL (("llm/").data) r.data = false) :
    scanSub tryR2 ((utilStmtStr r).data) = (utilStmtStr r).data := by
  rw [utilStmt_data]
  refine scanSub_of_nma ?_
  refine nma_cons (tryR2_on_util r.data hl) ?_
  exact nma_of_heads _ tryR2_nil (fun c hc l2 => tryR2_head c l2
    ((avoid_append (by decide) (avoid_append (by decide)
        (avoid_append hf (by decide))) :
      ∀ c ∈ ('r' :: 'o' :: 'm' :: ' ' :: qc :: []) ++ (litUtils ++ (r.data ++ [qc])),
        c ≠ 'f') c hc))

theorem scanSub_tryR3_util (r : String) (hne : r.data ≠ [])
    (hq : ∀ c ∈ r.data, isQ c = false) :
    scanSub tryR3 ((utilStmtStr r).data) = replParentDir r.data := by
  rw [utilStmt_data]
  exact scanSub_all (tryR3_util_match r.data hne hq)

theorem tryR1_relSub_none (d : Nat) :
    tryR1 ('f' :: 'r' :: 'o' :: 'm' :: ' ' :: qc ::
      (dotsL d ++ ("types/widgets\x27").data)) = none := by
  have hml : matchLit litUtilsHttp (dotsL d ++ ("types/widgets\x27").data) = none := by
    rw [show litUtilsHttp = '@' :: (("modular-agent/common-utils/http/").data) from by decide]
    exact matchLit_at_dots '@' _ d _ (by decide) (by decide)
  have e := matchUtilsWith_at litUtilsHttp (dotsL d ++ ("types/widgets\x27").data)
  rw [hml] at e
  simp [tryR1, e]

theorem tryR2_relSub_none (d : Nat) :
    tryR2 ('f' :: 'r' :: 'o' :: 'm' :: ' ' :: qc ::
      (dotsL d ++ ("types/widgets\x27").data)) = none := by
  have hml : matchLit litUtilsLlm (dotsL d ++ ("types/widgets\x27").data) = none := by
    rw [show litUtilsLlm = '@' :: (("modular-agent/common-utils/llm/").data) from by decide]
    exact matchLit_at_dots '@' _ d _ (by decide) (by decide)
  have e := matchUtilsWith_at litUtilsLlm (dotsL d ++ ("types/widgets\x27").data)
  rw [hml] at e
  simp [tryR2, e]

theorem tryR3_relSub_none (d : Nat) :
    tryR3 ('f' :: 'r' :: 'o' :: 'm' :: ' ' :: qc ::
      (dotsL d ++ ("types/widgets\x27").data)) = none := by
  have hml : matchLit litUtils (dotsL d ++ ("types/widgets\x27").data) = none := by
    rw [show litUtils = '@' :: (("modular-agent/common-utils/").data) from by decide]
    exact matchLit_at_dots '@' _ d _ (by decide) (by decide)
  have e := matchUtilsWith_at litUtils (dotsL d ++ ("types/widgets\x27").data)
  rw [hml] at e
  simp [tryR3, e]

theorem scanSub_tryR1_relSub_id (d : Nat) :
    scanSub tryR1 ((relSubStr d).data) = (relSubStr d).data := by
  rw [relSub_data]
  refine scanSub_of_nma ?_
  refine nma_cons (tryR1_relSub_none d) ?_
  exact nma_of_heads _ tryR1_nil
    (fun c hc l2 => tryR1_head c l2 (relSub_rest_avoid_f d c hc))

theorem scanSub_tryR2_relSub_id (d : Nat) :
    scanSub tryR2 ((relSubStr d).data) = (relSubStr d).data := by
  rw [relSub_data]
  refine scanSub_of_nma ?_
  refine nma_cons (tryR2_relSub_none d) ?_
  exact nma_of_heads _ tryR2_nil
    (fun c hc l2 => tryR2_head c l2 (relSub_rest_avoid_f d c hc))

theorem scanSub_tryR3_relSub_id (d : Nat) :
    scanSub tryR3 ((relSubStr d).data) = (relSubStr d).data := by
  rw [relSub_data]
  refine scanSub_of_nma ?_
  refine nma_cons (tryR3_relSub_none d) ?_
  exact nma_of_heads _ tryR3_nil
    (fun c hc l2 => tryR3_head c l2 (relSub_rest_avoid_f d c hc))

theorem strMk_data (s : String) : (⟨s.data⟩ : String) = s := rfl

theorem fixFinalContent_relSub (d : Nat) (h1 : 1 ≤ d) (h6 : d ≤ 6) :
    fixFinalContent (relSubStr d) = aliasSubStr := by
  show (⟨scanSub tryP2 (scanSub tryP1 (relSubStr d).data)⟩ : String) = aliasSubStr
  rw [scanSub_tryP1_relSub d h1 h6,
    show scanSub tryP2 ((aliasSubStr).data) = (aliasSubStr).data from by decide]

theorem fixFinalContent_relSub_id (d : Nat) (h : ¬(1 ≤ d ∧ d ≤ 6)) :
    fixFinalContent (relSubStr d) = relSubStr d := by
  show (⟨scanSub tryP2 (scanSub tryP1 (relSubStr d).data)⟩ : String) = relSubStr d
  rw [scanSub_tryP1_relSub_id d h, scanSub_tryP2_relSub_id d]

theorem fixFinalContent_named (d : Nat) (h1 : 1 ≤ d) (h6 : d ≤ 6) :
    fixFinalContent (namedStr d) = namedAliasStr := by
  show (⟨scanSub tryP2 (scanSub tryP1 (namedStr d).data)⟩ : String) = namedAliasStr
  rw [scanSub_tryP1_named d h1 h6,
    show scanSub tryP2 ((namedAliasStr).data) = (namedAliasStr).data from by decide]

theorem fixFinalContent_named_id (d : Nat) (h : ¬(1 ≤ d ∧ d ≤ 6)) :
    fixFinalContent (namedStr d) = namedStr d := by
  show (⟨scanSub tryP2 (scanSub tryP1 (namedStr d).data)⟩ : String) = namedStr d
  rw [scanSub_tryP1_named_id d h, scanSub_tryP2_named_id d h]

theorem fixFinalContent_relRoot_id (d : Nat) :
    fixFinalContent (relRootStr d) = relRootStr d := by
  show (⟨scanSub tryP2 (scanSub tryP1 (relRootStr d).data)⟩ : String) = relRootStr d
  rw [scanSub_tryP1_relRoot_id d, scanSub_tryP2_relRoot_id d]

theorem fixSdkContent_relRoot (d : Nat) (h1 : 1 ≤ d) :
    fixSdkContent (relRootStr d) = aliasRootStr := by
  show (⟨scanSub trySdk (relRootStr d).data⟩ : String) = aliasRootStr
  rw [scanSub_trySdk_relRoot d h1]

theorem fixSdkContent_relRoot_id_zero : fixSdkContent (relRootStr 0) = relRootStr 0 := by
  show (⟨scanSub trySdk (relRootStr 0).data⟩ : String) = relRootStr 0
  rw [scanSub_trySdk_relRoot_id_zero]

theorem fixSdkContent_relSub_id (d : Nat) :
    fixSdkContent (relSubStr d) = relSubStr d := by
  show (⟨scanSub trySdk (relSubStr d).data⟩ : String) = relSubStr d
  rw [scanSub_trySdk_relSub_id d]

theorem restoreContent_relSub_id (d : Nat) :
    restoreContent (relSubStr d) = relSubStr d := by
  show (⟨scanSub tryR3 (scanSub tryR2 (scanSub tryR1 (relSubStr d).data))⟩ : String) =
    relSubStr d
  rw [scanSub_tryR1_relSub_id d, scanSub_tryR2_relSub_id d, scanSub_tryR3_relSub_id d]

theorem canonContent_relSub (d : Nat) (h1 : 1 ≤ d) (h6 : d ≤ 6) :
    canonContent (relSubStr d) = aliasSubStr := by
  show fixSdkContent (fixFinalContent (relSubStr d)) = aliasSubStr
  rw [fixFinalContent_relSub d h1 h6]
  decide

theorem canonContent_relRoot (d : Nat) (h1 : 1 ≤ d) :
    canonContent (relRootStr d) = aliasRootStr := by
  show fixSdkContent (fixFinalContent (relRootStr d)) = aliasRootStr
  rw [fixFinalContent_relRoot_id d, fixSdkContent_relRoot d h1]

theorem restoreContent_http (r : String) (hne : r.data ≠ [])
    (hq : ∀ c ∈ r.data, isQ c = false) (hf : ∀ c ∈ r.data, c ≠ 'f') :
    restoreContent (httpStmtStr r) = sameDirStr r := by
  show (⟨scanSub tryR3 (scanSub tryR2 (scanSub tryR1 (httpStmtStr r).data))⟩ : String) =
    sameDirStr r
  rw [scanSub_tryR1_http r hne hq, scanSub_tryR2_sameDir r.data hf,
    scanSub_tryR3_sameDir r.data hf]
  rfl

theorem restoreContent_llm (r : String) (hne : r.data ≠ [])
    (hq : ∀ c ∈ r.data, isQ c = false) (hf : ∀ c ∈ r.data, c ≠ 'f') :
    restoreContent (llmStmtStr r) = sameDirStr r := by
  show (⟨scanSub tryR3 (scanSub tryR2 (scanSub tryR1 (llmStmtStr r).data))⟩ : String) =
    sameDirStr r
  rw [scanSub_tryR1_llm_id r hf, scanSub_tryR2_llm r hne hq,
    scanSub_tryR3_sameDir r.data hf]
  rfl

theorem restoreContent_util (r : String) (hne : r.data ≠ [])
    (hq : ∀ c ∈ r.data, isQ c = false) (hf : ∀ c ∈ r.data, c ≠ 'f')
    (hh : startsWithL (("http/").data) r.data = false)
    (hl : startsWithL (("llm/").data) r.data = false) :
    restoreContent (utilStmtStr r) = parentDirStr r := by
  show (⟨scanSub tryR3 (scanSub tryR2 (scanSub tryR1 (utilStmtStr r).data))⟩ : String) =
    parentDirStr r
  rw [scanSub_tryR1_util_id r hf hh, scanSub_tryR2_util_id r hf hl,
    scanSub_tryR3_util r hne hq]
  rfl

theorem batch_dts_skipped (transform : String → String) (files : List TsFile)
    (name : String) (c : String) (hd : endsWithName name (".d.ts") = true)
    (hmem : (name, Outcome.modified c) ∈
      (files.filter (fun f => endsWithName f.name (".ts"))).map (fun f =>
        if endsWithName f.name (".d.ts") then (f.name, Outcome.skippedDecl)
        else (f.name, processFileTry transform f))) : False := by
  rw [List.mem_map] at hmem
  obtain ⟨f, _, heq⟩ := hmem
  by_cases h2 : endsWithName f.name (".d.ts") = true
  · rw [if_pos h2] at heq
    have h3 := congrArg Prod.snd heq
    simp at h3
  · rw [if_neg h2] at heq
    have hn : f.name = name := congrArg Prod.fst heq
    rw [hn] at h2
    exact h2 hd

theorem filtermap_local {α β : Type} (p : α → Bool) (g : α → β)
    (xs : List α) (f : α) (ys : List α) :
    ((xs ++ f :: ys).filter p).map g =
      ((xs.filter p).map g) ++ (([f].filter p).map g) ++ ((ys.filter p).map g) := by
  by_cases hp : p f = true <;>
    simp [List.filter_append, List.filter_cons, hp, List.map_append, List.append_assoc]

/-- C1 counterexample: the claim quantifies over every transformation in
the system, but the restoration script does not rewrite a depth-2
relative types import to the alias form (it leaves it unchanged), and
the SDK canonicalization script does rewrite a depth-7 root import
rather than leaving it unmodified. -/
theorem c1_counterexample :
    restoreContent (relSubStr 2) = relSubStr 2 ∧ relSubStr 2 ≠ aliasSubStr ∧
    fixSdkContent (relRootStr 7) ≠ relRootStr 7 ∧
    fixSdkContent (relRootStr 7) = aliasRootStr := by
  decide

/-- C1 amended: depth coverage holds per script.  The submodule
canonicalization script rewrites a relative types submodule import of
depth 1 to 6 to the alias form and leaves depth 7 or more unmodified;
the SDK script rewrites a bare types root import of any depth at least 1
to the bare alias (and ignores submodule imports); the restoration
script leaves relative types imports unmodified. -/
theorem c1_amended (d : Nat) (h1 : 1 ≤ d) :
    (d ≤ 6 → fixFinalContent (relSubStr d) = aliasSubStr) ∧
    (7 ≤ d → fixFinalContent (relSubStr d) = relSubStr d) ∧
    fixSdkContent (relRootStr d) = aliasRootStr ∧
    fixSdkContent (relSubStr d) = relSubStr d ∧
    restoreContent (relSubStr d) = relSubStr d :=
  ⟨fun h6 => fixFinalContent_relSub d h1 h6,
   fun _ => fixFinalContent_relSub_id d (by omega),
   fixSdkContent_relRoot d h1,
   fixSdkContent_relSub_id d,
   restoreContent_relSub_id d⟩

/-- C1 witness: the amended statement instantiated at depth 3 and at
depth 7. -/
theorem c1_witness :
    fixFinalContent (relSubStr 3) = aliasSubStr ∧
    fixFinalContent (relSubStr 7) = relSubStr 7 ∧
    fixSdkContent (relRootStr 3) = aliasRootStr ∧
    restoreContent (relSubStr 7) = relSubStr 7 :=
  ⟨(c1_amended 3 (by decide)).1 (by decide),
   (c1_amended 7 (by decide)).2.1 (by decide),
   (c1_amended 3 (by decide)).2.2.1,
   (c1_amended 7 (by decide)).2.2.2.2⟩

/-- C2 counterexample: the SDK script has no declaration-file exclusion,
so a declaration file whose content holds a matching root import is
modified by its batch run. -/
theorem c2_counterexample :
    sdk_main_batch
        [⟨"a.d.ts", Except.ok ("import \x7b A \x7d from \x27./types\x27;"), true⟩] =
      Except.ok [(("a.d.ts"),
        Outcome.modified ("import \x7b A \x7d from \x27@modular-agent/types\x27;"))] := by
  decide

/-- C2 amended: the two scripts that do filter declaration files,
fix_imports_final.py and restore_internal_imports.py, never produce a
modified outcome for a file whose name ends in the declaration suffix;
the SDK script lacks the filter and can modify such files. -/
theorem c2_amended (files : List TsFile) (name : String) (c : String)
    (hd : endsWithName name (".d.ts") = true) :
    ((name, Outcome.modified c) ∈ fix_imports_in_directory files → False) ∧
    ((name, Outcome.modified c) ∈ restore_imports_in_directory files → False) :=
  ⟨fun hmem => batch_dts_skipped fixFinalContent files name c hd hmem,
   fun hmem => batch_dts_skipped restoreContent files name c hd hmem⟩

/-- C2 witness: the amended statement instantiated at a concrete
declaration file holding a matching import. -/
theorem c2_witness :
    ((("b.d.ts"), Outcome.modified ("x")) ∈ fix_imports_in_directory
      [⟨"b.d.ts", Except.ok ("from \x27../types/widgets\x27;"), true⟩] → False) ∧
    ((("b.d.ts"), Outcome.modified ("x")) ∈ restore_imports_in_directory
      [⟨"b.d.ts", Except.ok ("from \x27../types/widgets\x27;"), true⟩] → False) :=
  c2_amended [⟨"b.d.ts", Except.ok ("from \x27../types/widgets\x27;"), true⟩]
    ("b.d.ts") ("x") (by decide)

/-- C3 counterexample: an unreadable file aborts the whole SDK batch,
while the same batch under fix_imports_final.py records the error for
that file and processes the remaining files. -/
theorem c3_counterexample :
    sdk_main_batch
        [⟨"a.ts", Except.ok ("const a = 1;"), true⟩,
         ⟨"b.ts", Except.error ("boom"), true⟩,
         ⟨"c.ts", Except.ok ("const c = 1;"), true⟩] =
      Except.error ("boom") ∧
    fix_imports_in_directory
        [⟨"a.ts", Except.ok ("const a = 1;"), true⟩,
         ⟨"b.ts", Except.error ("boom"), true⟩,
         ⟨"c.ts", Except.ok ("const c = 1;"), true⟩] =
      [(("a.ts"), Outcome.unchanged), (("b.ts"), Outcome.ioError ("boom")),
       (("c.ts"), Outcome.unchanged)] := by
  decide

/-- C3 amended: for fix_imports_final.py and restore_internal_imports.py
the per-file try block makes the batch local: the outcome list of any
batch splits around each file, so one file with an I/O failure never
affects the processing of the files before or after it.  The SDK script
has no such protection. -/
theorem c3_amended (xs : List TsFile) (f : TsFile) (ys : List TsFile) :
    fix_imports_in_directory (xs ++ f :: ys) =
      fix_imports_in_directory xs ++ fix_imports_in_directory [f] ++
        fix_imports_in_directory ys ∧
    restore_imports_in_directory (xs ++ f :: ys) =
      restore_imports_in_directory xs ++ restore_imports_in_directory [f] ++
        restore_imports_in_directory ys :=
  ⟨filtermap_local _ _ xs f ys, filtermap_local _ _ xs f ys⟩

/-- C4: the canonicalization script of fix_imports_final.py preserves
the symbol-binding clause of a named import character for character,
rewriting only the module specifier, and introduces no clause on a bare
from-reference, for every traversal depth from 1 to 6. -/
theorem c4_confirmed (d : Nat) (h1 : 1 ≤ d) (h6 : d ≤ 6) :
    fixFinalContent (namedStr d) = namedAliasStr ∧
    fixFinalContent (relSubStr d) = aliasSubStr :=
  ⟨fixFinalContent_named d h1 h6, fixFinalContent_relSub d h1 h6⟩

/-- C4 witness: the statement instantiated at depth 2. -/
theorem c4_witness :
    fixFinalContent (namedStr 2) = namedAliasStr ∧
    fixFinalContent (relSubStr 2) = aliasSubStr :=
  c4_confirmed 2 (by decide) (by decide)

/-- C5 counterexample: the canonicalization of fix_imports_final.py is
not idempotent on every input.  When a captured submodule path itself
holds the beginning of an import reference, the closing quote of the
rewritten import is re-read as the opening quote of a new import on the
second pass. -/
theorem c5_counterexample :
    fixFinalContent (fixFinalContent ("from \x27../types/from \x27../types/x\x27")) ≠
      fixFinalContent ("from \x27../types/from \x27../types/x\x27") := by
  decide

/-- C5 amended: both canonicalization scripts are idempotent on relative
types import statements of every traversal depth; the fully universal
statement fails only for texts in which a captured submodule segment
itself holds an embedded import prefix. -/
theorem c5_amended (d : Nat) :
    fixFinalContent (fixFinalContent (relSubStr d)) = fixFinalContent (relSubStr d) ∧
    fixSdkContent (fixSdkContent (relRootStr d)) = fixSdkContent (relRootStr d) := by
  constructor
  · by_cases hg : 1 ≤ d ∧ d ≤ 6
    · rw [fixFinalContent_relSub d hg.1 hg.2]
      decide
    · rw [fixFinalContent_relSub_id d hg, fixFinalContent_relSub_id d hg]
  · rcases Nat.eq_zero_or_pos d with rfl | h1
    · rw [fixSdkContent_relRoot_id_zero, fixSdkContent_relRoot_id_zero]
    · rw [fixSdkContent_relRoot d h1]
      decide

/-- C6: under the restoration script, an alias import of the http (or
llm) submodule of common-utils is rewritten to the same-directory form,
and an alias import of any other submodule is rewritten to the
parent-directory form; the http and llm rules run before the catch-all
rule and therefore take priority.  The captured path ranges over
non-empty quote-free strings that do not contain the letter starting the
word from. -/
theorem c6_confirmed (r : String) (hne : r.data ≠ [])
    (hq : ∀ c ∈ r.data, isQ c = false) (hf : ∀ c ∈ r.data, c ≠ 'f')
    (hh : startsWithL (("http/").data) r.data = false)
    (hl : startsWithL (("llm/").data) r.data = false) :
    restoreContent (httpStmtStr r) = sameDirStr r ∧
    restoreContent (llmStmtStr r) = sameDirStr r ∧
    restoreContent (utilStmtStr r) = parentDirStr r :=
  ⟨restoreContent_http r hne hq hf, restoreContent_llm r hne hq hf,
   restoreContent_util r hne hq hf hh hl⟩

/-- C6 witness: the statement instantiated at the concrete path client,
matching the examples of the specification. -/
theorem c6_witness :
    restoreContent (httpStmtStr ("client")) = sameDirStr ("client") ∧
    restoreContent (llmStmtStr ("client")) = sameDirStr ("client") ∧
    restoreContent (utilStmtStr ("client")) = parentDirStr ("client") :=
  c6_confirmed ("client") (by decide) (by decide) (by decide) (by decide) (by decide)

/-- C7: running both canonicalization scripts, a relative types
submodule import of depth 1 to 6 becomes the alias form with the
submodule preserved, and a relative types root import of any positive
depth becomes the bare alias with no trailing path. -/
theorem c7_confirmed (d : Nat) (h1 : 1 ≤ d) :
    (d ≤ 6 → canonContent (relSubStr d) = aliasSubStr) ∧
    canonContent (relRootStr d) = aliasRootStr :=
  ⟨fun h6 => canonContent_relSub d h1 h6, canonContent_relRoot d h1⟩

/-- C7 witness: the statement instantiated at depth 2. -/
theorem c7_witness :
    canonContent (relSubStr 2) = aliasSubStr ∧
    canonContent (relRootStr 2) = aliasRootStr :=
  ⟨(c7_confirmed 2 (by decide)).1 (by decide), (c7_confirmed 2 (by decide)).2⟩

/-- C8 counterexample: a common-utils file whose only
rule-targetable import is a same-package submodule reference in alias form is left
unchanged by canonicalization but rewritten by restoration, so the
round trip does not reproduce the original. -/
theorem c8_counterexample :
    canonContent ("from \x27@modular-agent/common-utils/http/client\x27") =
      ("from \x27@modular-agent/common-utils/http/client\x27") ∧
    restoreContent (canonContent
        ("from \x27@modular-agent/common-utils/http/client\x27")) ≠
      ("from \x27@modular-agent/common-utils/http/client\x27") := by
  decide

/-- C8 amended: for a file whose same-package references are in relative
form, so that no canonicalization or restoration rule matches anywhere
in the text, canonicalization followed by restoration reproduces the
original text exactly. -/
theorem c8_amended (t : String) (h : noRuleMatch t) :
    restoreContent (canonContent t) = t := by
  obtain ⟨h1, h2, h3, h4, h5, h6⟩ := h
  have e1 : scanSub tryP1 t.data = t.data := scanSub_of_nma (nma_of_bool h1)
  have e2 : scanSub tryP2 t.data = t.data := scanSub_of_nma (nma_of_bool h2)
  have e3 : scanSub trySdk t.data = t.data := scanSub_of_nma (nma_of_bool h3)
  have e4 : scanSub tryR1 t.data = t.data := scanSub_of_nma (nma_of_bool h4)
  have e5 : scanSub tryR2 t.data = t.data := scanSub_of_nma (nma_of_bool h5)
  have e6 : scanSub tryR3 t.data = t.data := scanSub_of_nma (nma_of_bool h6)
  have ec : canonContent t = t := by
    show fixSdkContent (fixFinalContent t) = t
    have ef : fixFinalContent t = t := by
      show (⟨scanSub tryP2 (scanSub tryP1 t.data)⟩ : String) = t
      rw [e1, e2]
    rw [ef]
    show (⟨scanSub trySdk t.data⟩ : String) = t
    rw [e3]
  rw [ec]
  show (⟨scanSub tryR3 (scanSub tryR2 (scanSub tryR1 t.data))⟩ : String) = t
  rw [e4, e5, e6]

/-- C8 witness: the amended statement instantiated at a concrete
intra-package file with relative same-package imports. -/
theorem c8_witness :
    restoreContent (canonContent ("import \x7b A \x7d from \x27./client\x27;")) =
      ("import \x7b A \x7d from \x27./client\x27;") :=
  c8_amended ("import \x7b A \x7d from \x27./client\x27;")
    ⟨by decide, by decide, by decide, by decide, by decide, by decide⟩

/-- C9 counterexample: the second pattern of fix_imports_final.py is
reachable after the first pattern has run.  On a text where a captured
submodule holds an embedded import prefix, the first pass leaves a tail
that the import-anchored pattern still matches, and its replacement
template fires with the traversal capture in place of the clause. -/
theorem c9_counterexample :
    fixFinalContent ("import \x7bA\x7d from \x27../types/from \x27../types/x\x27") ≠
      subP1onlyContent ("import \x7bA\x7d from \x27../types/from \x27../types/x\x27") := by
  decide

/-- C9 amended: on any standalone named types import statement, of every
traversal depth, applying both patterns of fix_imports_final.py in
order is the same as applying only the first pattern: after the first
pass the second pattern cannot match there. -/
theorem c9_amended (d : Nat) :
    fixFinalContent (namedStr d) = subP1onlyContent (namedStr d) := by
  by_cases hg : 1 ≤ d ∧ d ≤ 6
  · rw [fixFinalContent_named d hg.1 hg.2]
    show _ = (⟨scanSub tryP1 (namedStr d).data⟩ : String)
    rw [scanSub_tryP1_named d hg.1 hg.2]
  · rw [fixFinalContent_named_id d hg]
    show _ = (⟨scanSub tryP1 (namedStr d).data⟩ : String)
    rw [scanSub_tryP1_named_id d hg]

/-- C10: the SDK pattern accepts current-directory segments and places
no upper bound on the traversal chain, so a same-directory types import,
a mixed chain, and a depth-8 chain are all rewritten to the bare
alias. -/
theorem c10_confirmed :
    fixSdkContent ("from \x27./types\x27") = aliasRootStr ∧
    fixSdkContent ("from \x27.././types\x27") = aliasRootStr ∧
    fixSdkContent (relRootStr 8) = aliasRootStr := by
  decide
